import Mathlib

/-!
Verification of the plexo-sdk resource-access layer.

Shallow embedding of `src/src/labels/operations.rs` and
`src/src/cognition/operations.rs`.  Definitions are translated from the
Rust source; components of the repository that are not under `src/`
(the `SDKError` taxonomy in `errors/sdk.rs`, the `SortOrder` display in
`common/commons.rs`, the `Task` record in `tasks/task.rs`) are modelled
from the spec and marked as such in their doc comments.
-/

namespace Plexo

/-- Modelled from the spec: the error taxonomy of `errors/sdk.rs` (not under
`src/`), spec section 7: Validation, NotFound, Conflict, Storage, Generation. -/
inductive SDKError where
  | Validation
  | NotFound
  | Conflict
  | Storage
  | Generation
  deriving DecidableEq, Repr

/-- The Label record.  Field list read off the uses in
`src/src/labels/operations.rs` (id, created_at, updated_at, name,
description, color); id and timestamps are opaque here (Nat). -/
structure Label where
  id : Nat
  created_at : Nat
  updated_at : Nat
  name : String
  description : Option String
  color : Option String
  deriving DecidableEq, Repr

/-- Modelled from the spec: `SortOrder` of `common/commons.rs` (not under
`src/`), spec section 3: ascending / descending, shown in the assembled
statement through its Display implementation. -/
inductive SortOrder where
  | Asc
  | Desc
  deriving DecidableEq, Repr

/-- Modelled from the spec: the Display text of a sort order. -/
def SortOrder.display : SortOrder → String
  | .Asc => "ASC"
  | .Desc => "DESC"

/-- `UpdateLabelInput` from `src/src/labels/operations.rs`: every field
optional (builder `strip_option` + `default`). -/
structure UpdateLabelInput where
  name : Option String
  description : Option String
  color : Option String
  deriving DecidableEq, Repr

/-- `GetLabelsWhere` from `src/src/labels/operations.rs`: three optional
scalar equality constraints plus optional `_and` / `_or` child lists. -/
inductive GetLabelsWhere where
  | mk (name description color : Option String)
      ( _and _or : Option (List GetLabelsWhere))

/-- The children carried by an optional child list (absent list gives no
children). -/
def optChildren (o : Option (List GetLabelsWhere)) : List GetLabelsWhere :=
  o.getD []

theorem sizeOf_lt_of_mem_optChildren {c : GetLabelsWhere}
    {o : Option (List GetLabelsWhere)} (h : c ∈ optChildren o) :
    sizeOf c < sizeOf o := by
  cases o with
  | none => simp [optChildren] at h
  | some l =>
    simp only [optChildren, Option.getD_some] at h
    have h1 := List.sizeOf_lt_of_mem h
    have h2 : sizeOf (some l) = 1 + sizeOf l := by simp
    omega

/-- The scalar equality clauses pushed by `compile_sql` for the present
fields, in source order (name, description, color); each is built by raw
interpolation of the literal, embedding
`format!("name = \x27\x7b\x7d\x27", name)` etc. -/
def scalarClauses (name description color : Option String) : List String :=
  (match name with
    | some n => ["name = \x27" ++ n ++ "\x27"]
    | none => []) ++
  (match description with
    | some d => ["description = \x27" ++ d ++ "\x27"]
    | none => []) ++
  (match color with
    | some c => ["color = \x27" ++ c ++ "\x27"]
    | none => [])

/-- The final assembly in `compile_sql`: wrap the non-empty AND group in
parentheses joined by " AND ", then append the OR group joined by " OR "
in parentheses, separated by " OR " when the AND part is non-empty. -/
def assembleWhere (andClauses orClauses : List String) : String :=
  let w1 := if andClauses.isEmpty then ""
    else "(" ++ String.intercalate " AND " andClauses ++ ")"
  if orClauses.isEmpty then w1
  else
    (if w1.isEmpty then w1 else w1 ++ " OR ") ++
      "(" ++ String.intercalate " OR " orClauses ++ ")"

/-- `GetLabelsWhere::compile_sql` from `src/src/labels/operations.rs`
lines 72-109: scalar clauses and every AND child fragment go into
`and_clauses` (the code pushes each child's fragment unconditionally),
every OR child fragment into `or_clauses`, then the groups are joined and
parenthesized. -/
def compile_sql (w : GetLabelsWhere) : String :=
  match w with
  | .mk name description color cand cor =>
    let andFrags := (optChildren cand).attach.map fun c => compile_sql c.1
    let orFrags := (optChildren cor).attach.map fun c => compile_sql c.1
    assembleWhere (scalarClauses name description color ++ andFrags) orFrags
termination_by sizeOf w
decreasing_by
  · have h1 := sizeOf_lt_of_mem_optChildren c.2
    simp only [GetLabelsWhere.mk.sizeOf_spec]
    omega
  · have h1 := sizeOf_lt_of_mem_optChildren c.2
    simp only [GetLabelsWhere.mk.sizeOf_spec]
    omega

/-- Unfolding equation for `compile_sql` without the `attach` bookkeeping. -/
theorem compile_sql_eq (name description color : Option String)
    (cand cor : Option (List GetLabelsWhere)) :
    compile_sql (.mk name description color cand cor) =
      assembleWhere
        (scalarClauses name description color ++
          (optChildren cand).map compile_sql)
        ((optChildren cor).map compile_sql) := by
  rw [compile_sql]
  rw [List.attach_map_val, List.attach_map_val]

/-- `GetLabelsInput` from `src/src/labels/operations.rs`. -/
structure GetLabelsInput where
  filter : Option GetLabelsWhere
  sort_by : Option String
  sort_order : Option SortOrder
  limit : Option Int
  offset : Option Int

/-- The statement string assembled by `SDKEngine::get_labels`
(`src/src/labels/operations.rs` lines 159-180): successive `push_str`
calls for the filter, sort, sort order, limit and offset clauses. -/
def get_labels_query (input : GetLabelsInput) : String :=
  let q := "SELECT * FROM labels "
  let q := match input.filter with
    | some f => q ++ ("WHERE " ++ compile_sql f ++ " ")
    | none => q
  let q := match input.sort_by with
    | some s => q ++ ("ORDER BY " ++ s ++ " ")
    | none => q
  let q := match input.sort_order with
    | some o => q ++ (o.display ++ " ")
    | none => q
  let q := match input.limit with
    | some l => q ++ ("LIMIT " ++ toString l ++ " ")
    | none => q
  let q := match input.offset with
    | some o => q ++ ("OFFSET " ++ toString o ++ " ")
    | none => q
  q

/-- `GetLabelsInputBuilder` with limit and offset left unset: the
`derive_builder` defaults on lines 49-52 fill `Some(100)` and `Some(0)`. -/
def GetLabelsInput.buildDefault (filter : Option GetLabelsWhere)
    (sort_by : Option String) (sort_order : Option SortOrder) :
    GetLabelsInput :=
  ⟨filter, sort_by, sort_order, some 100, some 0⟩

/-! ### Store-level semantics of the label CRUD statements

The store is a list of `Label` rows.  Each operation embeds the single
SQL statement issued by the corresponding `SDKEngine` method; a
`fetch_one` on a statement matching no row surfaces as `NotFound`
(mapping modelled from the spec, sections 4.3 and 7, since
`errors/sdk.rs` is not under `src/`). -/

/-- `SDKEngine::get_label`: `SELECT * FROM labels WHERE id = $1` with
`fetch_one`; no matching row is a NotFound failure. -/
def getLabel (s : List Label) (id : Nat) : Except SDKError Label :=
  match s.find? (fun l => l.id == id) with
  | some l => .ok l
  | none => .error .NotFound

/-- The row transformation of the UPDATE statement in
`SDKEngine::update_label`: `SET name = COALESCE($1, name),
description = COALESCE($2, description), color = COALESCE($3, color)` —
each column keeps its stored value when the bound input is null.  The
statement sets no other column. -/
def Label.applyUpdate (l : Label) (i : UpdateLabelInput) : Label :=
  Label.mk l.id l.created_at l.updated_at
    (i.name.getD l.name)
    (i.description.or l.description)
    (i.color.or l.color)

/-- `SDKEngine::update_label`: the UPDATE statement rewrites every row
matching the id and `RETURNING *` with `fetch_one` yields the updated
row, or NotFound when the id matches no row. -/
def updateLabel (s : List Label) (id : Nat) (i : UpdateLabelInput) :
    Except SDKError (Label × List Label) :=
  match s.find? (fun l => l.id == id) with
  | some l =>
    .ok (l.applyUpdate i, s.map fun r => if r.id == id then r.applyUpdate i else r)
  | none => .error .NotFound

/-- `SDKEngine::delete_label`: `DELETE FROM labels WHERE id = $1
RETURNING *` with `fetch_one` — removes every row matching the id,
returning the deleted row, or NotFound when the id matches no row. -/
def deleteLabel (s : List Label) (id : Nat) :
    Except SDKError (Label × List Label) :=
  match s.find? (fun l => l.id == id) with
  | some l => .ok (l, s.filter fun r => r.id != id)
  | none => .error .NotFound

/-! ### Cognition pipeline (`src/src/cognition/operations.rs`)

The completion service is an external collaborator returning raw text,
so each operation takes the text the single `chat_completion` call
returns; the third component of the result counts how many completion
calls the operation performed.  The store handle is threaded through and
returned so that the absence of store writes is visible in the result. -/

/-- Modelled from the spec: the `TaskStatus` values declared to the model
in `subdivide_task`'s schema prompt (`tasks/task.rs` is not under
`src/`): None, Backlog, ToDo, InProgress, Done, Canceled. -/
inductive TaskStatus where
  | None
  | Backlog
  | ToDo
  | InProgress
  | Done
  | Canceled
  deriving DecidableEq, Repr

/-- Modelled from the spec: the `TaskPriority` values declared in the
schema prompt: None, Low, Medium, High, Urgent. -/
inductive TaskPriority where
  | None
  | Low
  | Medium
  | High
  | Urgent
  deriving DecidableEq, Repr

/-- `TaskSuggestion` from `src/src/cognition/operations.rs` lines 38-46:
title, description, status, priority, due_date — and no identity field.
The due date is kept as its textual form; chrono's datetime validation
belongs to the external library and is not modelled. -/
structure TaskSuggestion where
  title : String
  description : String
  status : TaskStatus
  priority : TaskPriority
  due_date : String
  deriving DecidableEq, Repr

/-- `TaskSuggestionInput` from `src/src/cognition/operations.rs`: every
field optional; it only shapes the prompt text. -/
structure TaskSuggestionInput where
  project_id : Option Nat
  title : Option String
  description : Option String
  status : Option TaskStatus
  priority : Option TaskPriority
  due_date : Option String

/-- `SubdivideTaskInput` from `src/src/cognition/operations.rs`
lines 48-53. -/
structure SubdivideTaskInput where
  task_id : Nat
  subtasks : Nat

/-- Modelled from the spec: the Task record (`tasks/task.rs` is not under
`src/`); only the identity is relevant to the claims, the rest of the
record shapes the fingerprint text. -/
structure Task where
  id : Nat
  title : String
  deriving DecidableEq, Repr

/-- The engine's store handle as seen by the cognition operations. -/
structure EngineState where
  tasks : List Task
  deriving DecidableEq, Repr

/-- Modelled from the spec, section 4.4 GatherContext: `get_task` fetches
exactly one task by identity, failing NotFound if absent (the task CRUD
source is not under `src/`). -/
def getTask (st : EngineState) (id : Nat) : Except SDKError Task :=
  match st.tasks.find? (fun t => t.id == id) with
  | some t => .ok t
  | none => .error .NotFound

/-! #### JSON parsing (embedding of `serde_json::from_str`)

A small executable JSON reader: values are parsed from the character
list with a fuel bound larger than any possible nesting depth, and the
whole input must be consumed up to trailing whitespace, as
`serde_json::from_str` requires.  Unicode escapes inside strings are not
modelled. -/

inductive Json where
  | null
  | bool (b : Bool)
  | num (raw : String)
  | str (s : String)
  | arr (elems : List Json)
  | obj (fields : List (String × Json))

def isWsChar (c : Char) : Bool :=
  c = ' ' || c = '\t' || c = '\n' || c = '\r'

def skipWs : List Char → List Char
  | [] => []
  | c :: cs => if isWsChar c then skipWs cs else c :: cs

/-- Read a JSON string body after the opening quote, handling the common
escapes; yields the decoded characters and the rest after the closing
quote. -/
def readStringBody : List Char → Option (List Char × List Char)
  | [] => none
  | '"' :: rest => some ([], rest)
  | '\\' :: e :: rest =>
    match (match e with
      | '"' => some '"'
      | '\\' => some '\\'
      | '/' => some '/'
      | 'n' => some '\n'
      | 't' => some '\t'
      | 'r' => some '\r'
      | 'b' => some (Char.ofNat 8)
      | 'f' => some (Char.ofNat 12)
      | _ => none) with
    | some c =>
      match readStringBody rest with
      | some (s, r2) => some (c :: s, r2)
      | none => none
    | none => none
  | c :: rest =>
    match readStringBody rest with
    | some (s, r2) => some (c :: s, r2)
    | none => none

def isNumChar (c : Char) : Bool :=
  c.isDigit || c = '-' || c = '+' || c = '.' || c = 'e' || c = 'E'

mutual

def parseValue : Nat → List Char → Option (Json × List Char)
  | 0, _ => none
  | fuel + 1, cs =>
    match skipWs cs with
    | [] => none
    | '"' :: rest =>
      match readStringBody rest with
      | some (s, r) => some (.str (String.mk s), r)
      | none => none
    | '\x7b' :: rest =>
      match parseObjFields fuel rest with
      | some (fs, r) => some (.obj fs, r)
      | none => none
    | '[' :: rest =>
      match parseArrElems fuel rest with
      | some (vs, r) => some (.arr vs, r)
      | none => none
    | 't' :: 'r' :: 'u' :: 'e' :: rest => some (.bool true, rest)
    | 'f' :: 'a' :: 'l' :: 's' :: 'e' :: rest => some (.bool false, rest)
    | 'n' :: 'u' :: 'l' :: 'l' :: rest => some (.null, rest)
    | c :: rest =>
      if c.isDigit || c = '-' then
        some (.num (String.mk ((c :: rest).takeWhile isNumChar)),
          (c :: rest).dropWhile isNumChar)
      else none

def parseArrElems : Nat → List Char → Option (List Json × List Char)
  | 0, _ => none
  | fuel + 1, cs =>
    match skipWs cs with
    | ']' :: rest => some ([], rest)
    | rest => parseArrTail fuel rest

def parseArrTail : Nat → List Char → Option (List Json × List Char)
  | 0, _ => none
  | fuel + 1, cs =>
    match parseValue fuel cs with
    | none => none
    | some (v, r) =>
      match skipWs r with
      | ',' :: r2 =>
        match parseArrTail fuel r2 with
        | some (vs, r3) => some (v :: vs, r3)
        | none => none
      | ']' :: r2 => some ([v], r2)
      | _ => none

def parseObjFields : Nat → List Char → Option (List (String × Json) × List Char)
  | 0, _ => none
  | fuel + 1, cs =>
    match skipWs cs with
    | '\x7d' :: rest => some ([], rest)
    | rest => parseObjTail fuel rest

def parseObjTail : Nat → List Char → Option (List (String × Json) × List Char)
  | 0, _ => none
  | fuel + 1, cs =>
    match skipWs cs with
    | '"' :: rest =>
      match readStringBody rest with
      | none => none
      | some (k, r) =>
        match skipWs r with
        | ':' :: r2 =>
          match parseValue fuel r2 with
          | none => none
          | some (v, r3) =>
            match skipWs r3 with
            | ',' :: r4 =>
              match parseObjTail fuel r4 with
              | some (kvs, r5) => some ((String.mk k, v) :: kvs, r5)
              | none => none
            | '\x7d' :: r4 => some ([(String.mk k, v)], r4)
            | _ => none
        | _ => none
    | _ => none

end

/-- Parse a whole string as one JSON value, requiring the entire input to
be consumed up to trailing whitespace. -/
def parseJson (s : String) : Option Json :=
  let cs := s.toList
  match parseValue (3 * cs.length + 3) cs with
  | some (v, rest) => if (skipWs rest).isEmpty then some v else none
  | none => none

def lookupField (fields : List (String × Json)) (k : String) : Option Json :=
  (fields.find? fun kv => kv.1 == k).map (·.2)

def Json.asString : Json → Option String
  | .str s => some s
  | _ => none

/-- Deserialization of the `TaskStatus` enum from its variant name. -/
def taskStatusFromString : String → Option TaskStatus
  | "None" => some .None
  | "Backlog" => some .Backlog
  | "ToDo" => some .ToDo
  | "InProgress" => some .InProgress
  | "Done" => some .Done
  | "Canceled" => some .Canceled
  | _ => none

/-- Deserialization of the `TaskPriority` enum from its variant name. -/
def taskPriorityFromString : String → Option TaskPriority
  | "None" => some .None
  | "Low" => some .Low
  | "Medium" => some .Medium
  | "High" => some .High
  | "Urgent" => some .Urgent
  | _ => none

/-- Derived `Deserialize` for `TaskSuggestion`: a JSON object whose five
declared fields are all present with the right types; an unknown enum
value or a missing required field is a parse failure. -/
def decodeTaskSuggestion (j : Json) : Option TaskSuggestion :=
  match j with
  | .obj fields => do
    let title ← (lookupField fields "title").bind Json.asString
    let description ← (lookupField fields "description").bind Json.asString
    let status ← ((lookupField fields "status").bind Json.asString).bind
      taskStatusFromString
    let priority ← ((lookupField fields "priority").bind Json.asString).bind
      taskPriorityFromString
    let due_date ← (lookupField fields "due_date").bind Json.asString
    some ⟨title, description, status, priority, due_date⟩
  | _ => none

/-- Derived `Deserialize` for `Vec<TaskSuggestion>`: a JSON array each of
whose elements decodes as a `TaskSuggestion`. -/
def decodeTaskSuggestionList (j : Json) : Option (List TaskSuggestion) :=
  match j with
  | .arr xs => xs.mapM decodeTaskSuggestion
  | _ => none

/-- `serde_json::from_str::<TaskSuggestion>`. -/
def parseTaskSuggestion (s : String) : Option TaskSuggestion :=
  (parseJson s).bind decodeTaskSuggestion

/-- `serde_json::from_str::<Vec<TaskSuggestion>>`. -/
def parseTaskSuggestionList (s : String) : Option (List TaskSuggestion) :=
  (parseJson s).bind decodeTaskSuggestionList

def trimEdges (p : Char → Bool) (cs : List Char) : List Char :=
  ((cs.dropWhile p).reverse.dropWhile p).reverse

/-- The response post-processing `result.trim().trim_matches` with the
backtick character, shared by `get_suggestions` and `subdivide_task`:
whitespace is trimmed from both ends first, then every leading and
trailing backtick. -/
def stripResponse (s : String) : String :=
  String.mk (trimEdges (fun c => c = '`') (trimEdges isWsChar s.toList))

/-- `SDKEngine::get_suggestions` (`src/src/cognition/operations.rs`
lines 63-98) after prompt construction: the single completion call
returns `response`; the stripped text is parsed as a `TaskSuggestion`,
a parse failure surfacing as a Generation error (the serde error
conversion lives in `errors/sdk.rs`, not under `src/`, and is modelled
from the spec, section 7).  The method runs no INSERT/UPDATE/DELETE, so
the store comes back unchanged; the final component counts completion
calls (always exactly one, no retry). -/
def get_suggestions (st : EngineState) (_input : TaskSuggestionInput)
    (response : String) :
    Except SDKError TaskSuggestion × EngineState × Nat :=
  match parseTaskSuggestion (stripResponse response) with
  | some s => (.ok s, st, 1)
  | none => (.error .Generation, st, 1)

/-- `SDKEngine::subdivide_task` (`src/src/cognition/operations.rs`
lines 100-137): first `get_task` on the input identity (propagating its
failure before any completion call); then one completion call whose
stripped response is parsed as a `Vec<TaskSuggestion>`, a parse failure
surfacing as a Generation error.  `input.subtasks` only appears in the
prompt text; the parsed list is returned as is.  No store write; the
final component counts completion calls. -/
def subdivide_task (st : EngineState) (input : SubdivideTaskInput)
    (response : String) :
    Except SDKError (List TaskSuggestion) × EngineState × Nat :=
  match getTask st input.task_id with
  | .error e => (.error e, st, 0)
  | .ok _ =>
    match parseTaskSuggestionList (stripResponse response) with
    | some l => (.ok l, st, 1)
    | none => (.error .Generation, st, 1)

/-- The completion stub of the spec's C8 test: the single-suggestion JSON
object wrapped in surrounding code-fence markup (the braces are written
as hexadecimal character escapes). -/
def fencedSingleSuggestion : String :=
  "```\x7b\"title\":\"x\",\"description\":\"y\",\"status\":\"Done\",\"priority\":\"High\",\"due_date\":\"2024-01-01T00:00:00Z\"\x7d```"

/-- A completion response carrying a 3-element suggestion array. -/
def threeElementResponse : String :=
  "[\x7b\"title\":\"a\",\"description\":\"da\",\"status\":\"ToDo\",\"priority\":\"Low\",\"due_date\":\"2024-01-01T00:00:00Z\"\x7d,\x7b\"title\":\"b\",\"description\":\"db\",\"status\":\"InProgress\",\"priority\":\"Medium\",\"due_date\":\"2024-02-01T00:00:00Z\"\x7d,\x7b\"title\":\"c\",\"description\":\"dc\",\"status\":\"Done\",\"priority\":\"High\",\"due_date\":\"2024-03-01T00:00:00Z\"\x7d]"

/-! ### Theorems -/

theorem paren_isEmpty_false (s : String) : ("(" ++ s ++ ")").isEmpty = false := by
  rw [← Bool.not_eq_true, String.isEmpty_iff]
  simp [String.ext_iff]

/-- Claim C1 (code_bug): `compile_sql` does NOT produce parameter
placeholders with bound values — it interpolates the caller-supplied
literal as raw text.  At the literal `x' OR '1'='1` (which contains quote
characters) the compiled fragment becomes `(name = 'x' OR '1'='1')`, an
altered query structure: the injected `OR '1'='1'` became part of the
predicate instead of a literal match.  This evaluates the code at the
failing input of the claim. -/
theorem compile_sql_raw_interpolation :
    compile_sql (.mk (some "x\x27 OR \x271\x27=\x271") none none none none)
      = "(name = \x27x\x27 OR \x271\x27=\x271\x27)" := by
  rw [compile_sql_eq]
  rfl

/-- Claim C2 (counterexample): the claim states that AND-children's
compiled fragments are appended "skipping empty results", so a node with
name `a` and one empty AND-child would compile to `(name = 'a')`.  The
code pushes every child fragment unconditionally: the actual result is
`(name = 'a' AND )`, with the empty child's fragment inside the join. -/
theorem compile_sql_empty_child_not_skipped :
    compile_sql (.mk (some "a") none none
        (some [.mk none none none none none]) none)
      = "(name = \x27a\x27 AND )" ∧
    compile_sql (.mk (some "a") none none
        (some [.mk none none none none none]) none)
      ≠ "(name = \x27a\x27)" := by
  have hchild : compile_sql (.mk none none none none none) = "" := by
    rw [compile_sql_eq]
    rfl
  constructor
  · rw [compile_sql_eq]
    simp only [optChildren, Option.getD_some, List.map_cons, List.map_nil, hchild]
    rfl
  · rw [compile_sql_eq]
    simp only [optChildren, Option.getD_some, List.map_cons, List.map_nil, hchild]
    decide

/-- Claim C2 (amended): for every predicate node, `compile_sql` emits one
equality clause per present scalar field (name, description, color, in
that order), appends each AND-child's compiled fragment WITHOUT skipping
empty results, joins the AND group with the AND operator parenthesized as
one group; a node whose OR group is empty compiles to that group alone
(empty when both groups are empty), and a node with both groups non-empty
compiles to exactly `(AND-clauses) OR (OR-clauses)`, with OR never
distributing across the AND children other than as one combined group. -/
theorem compile_sql_group_structure (name description color : Option String)
    (cand cor : Option (List GetLabelsWhere)) :
    ((optChildren cor).map compile_sql = [] →
      scalarClauses name description color ++ (optChildren cand).map compile_sql ≠ [] →
      compile_sql (.mk name description color cand cor)
        = "(" ++ String.intercalate " AND "
            (scalarClauses name description color
              ++ (optChildren cand).map compile_sql) ++ ")") ∧
    (scalarClauses name description color ++ (optChildren cand).map compile_sql = [] →
      (optChildren cor).map compile_sql = [] →
      compile_sql (.mk name description color cand cor) = "") ∧
    (scalarClauses name description color ++ (optChildren cand).map compile_sql = [] →
      (optChildren cor).map compile_sql ≠ [] →
      compile_sql (.mk name description color cand cor)
        = "(" ++ String.intercalate " OR " ((optChildren cor).map compile_sql) ++ ")") ∧
    (scalarClauses name description color ++ (optChildren cand).map compile_sql ≠ [] →
      (optChildren cor).map compile_sql ≠ [] →
      compile_sql (.mk name description color cand cor)
        = "(" ++ String.intercalate " AND "
            (scalarClauses name description color
              ++ (optChildren cand).map compile_sql) ++ ")"
          ++ " OR "
          ++ "(" ++ String.intercalate " OR " ((optChildren cor).map compile_sql) ++ ")") := by
  refine ⟨?_, ?_, ?_, ?_⟩ <;> intro h1 h2 <;> rw [compile_sql_eq] <;>
    simp [assembleWhere, h1, h2, paren_isEmpty_false,
      (show "".isEmpty = true from rfl)]

/-- Witness for the amended claim C2: a node with only a present name
field compiles to `(name = 'a')`, and a node with a present name field
and one OR-child with name `b` compiles to
`(name = 'a') OR ((name = 'b'))`. -/
theorem compile_sql_group_structure_witness :
    compile_sql (.mk (some "a") none none none none) = "(name = \x27a\x27)" ∧
    compile_sql (.mk (some "a") none none none
        (some [.mk (some "b") none none none none]))
      = "(name = \x27a\x27) OR ((name = \x27b\x27))" := by
  have hb : compile_sql (.mk (some "b") none none none none)
      = "(name = \x27b\x27)" := by
    rw [compile_sql_eq]
    rfl
  constructor
  · exact (compile_sql_group_structure (some "a") none none none none).1
      rfl (by decide)
  · have h := (compile_sql_group_structure (some "a") none none none
      (some [.mk (some "b") none none none none])).2.2.2
      (by decide) (by simp [optChildren])
    rw [show (optChildren (some [GetLabelsWhere.mk (some "b") none none none none])).map
        compile_sql = [compile_sql (.mk (some "b") none none none none)] from rfl,
      hb] at h
    exact h

/-- Claim C3 (code_bug): an empty predicate node does compile to the
empty fragment, but `get_labels` does not omit the filter clause for a
present-but-empty filter: the assembled statement contains `WHERE `
followed by the empty predicate, a syntactically invalid statement,
instead of containing no WHERE clause.  This evaluates the code at the
failing input of the claim. -/
theorem get_labels_empty_filter_emits_where :
    compile_sql (.mk none none none none none) = "" ∧
    compile_sql (.mk none none none (some []) (some [])) = "" ∧
    get_labels_query
        ⟨some (.mk none none none none none), none, none, some 100, some 0⟩
      = "SELECT * FROM labels WHERE  LIMIT 100 OFFSET 0 " := by
  have h : compile_sql (.mk none none none none none) = "" := by
    rw [compile_sql_eq]
    rfl
  refine ⟨h, by rw [compile_sql_eq]; rfl, ?_⟩
  simp only [get_labels_query, h]
  rfl

/-- Claim C4 (code_bug): `get_labels` performs no allow-list validation of
the sort field: the caller-supplied sort string is interpolated verbatim
into the assembled statement (here `name; DROP TABLE labels; --`, not a
known column of the labels resource), and no Validation error is
surfaced — the assembly is total.  This evaluates the code at the
failing input of the claim. -/
theorem get_labels_sort_by_verbatim :
    get_labels_query
        ⟨none, some "name; DROP TABLE labels; --", none, some 100, some 0⟩
      = "SELECT * FROM labels ORDER BY name; DROP TABLE labels; -- LIMIT 100 OFFSET 0 " := by
  rfl

/-- Claim C5: a `GetLabelsInput` built with limit and offset left unset
carries the builder defaults Some(100) and Some(0), so the assembled
statement always ends with the bound `LIMIT 100 OFFSET 0 ` clauses —
never falling back to all rows — whatever the filter, sort field and
sort order are. -/
theorem get_labels_default_pagination (f : Option GetLabelsWhere)
    (sb : Option String) (so : Option SortOrder) :
    ∃ p, get_labels_query (GetLabelsInput.buildDefault f sb so)
      = p ++ "LIMIT 100 OFFSET 0 " := by
  have hlit : "LIMIT 100 " ++ "OFFSET 0 " = "LIMIT 100 OFFSET 0 " := rfl
  have key : get_labels_query (GetLabelsInput.buildDefault f sb so)
      = ((get_labels_query ⟨f, sb, so, none, none⟩) ++ "LIMIT 100 ") ++ "OFFSET 0 " := by
    cases f <;> cases sb <;> cases so <;> rfl
  exact ⟨get_labels_query ⟨f, sb, so, none, none⟩,
    by rw [key, String.append_assoc, hlit]⟩

/-- Claim C6: for an existing label identity, `update_label` overwrites
exactly the fields present in the input and preserves the stored value of
every absent field (COALESCE semantics of the UPDATE statement), leaving
identity and timestamps untouched and returning the post-update record;
with all three fields absent, name, description and color are
unchanged. -/
theorem update_label_coalesce (s : List Label) (id : Nat)
    (i : UpdateLabelInput) (old upd : Label) (s2 : List Label)
    (hget : getLabel s id = .ok old)
    (hupd : updateLabel s id i = .ok (upd, s2)) :
    upd.id = old.id ∧
    upd.created_at = old.created_at ∧
    upd.updated_at = old.updated_at ∧
    (∀ v, i.name = some v → upd.name = v) ∧
    (∀ v, i.description = some v → upd.description = some v) ∧
    (∀ v, i.color = some v → upd.color = some v) ∧
    (i.name = none → upd.name = old.name) ∧
    (i.description = none → upd.description = old.description) ∧
    (i.color = none → upd.color = old.color) ∧
    (i.name = none → i.description = none → i.color = none →
      upd.name = old.name ∧ upd.description = old.description ∧
        upd.color = old.color) := by
  cases hf : s.find? (fun l => l.id == id) with
  | none => simp [getLabel, hf] at hget
  | some l =>
    simp only [getLabel, hf, Except.ok.injEq] at hget
    simp only [updateLabel, hf, Except.ok.injEq, Prod.mk.injEq] at hupd
    obtain ⟨hu, -⟩ := hupd
    subst hget
    subst hu
    refine ⟨rfl, rfl, rfl, ?_, ?_, ?_, ?_, ?_, ?_, ?_⟩
    · intro v hv
      simp [Label.applyUpdate, hv]
    · intro v hv
      simp [Label.applyUpdate, hv]
    · intro v hv
      simp [Label.applyUpdate, hv]
    · intro hv
      simp [Label.applyUpdate, hv]
    · intro hv
      simp [Label.applyUpdate, hv]
    · intro hv
      simp [Label.applyUpdate, hv]
    · intro h1 h2 h3
      simp [Label.applyUpdate, h1, h2, h3]

/-- Witness for claim C6 at a concrete store: label 1 with name `n`,
description `d`, no color; updating with a present name `n2` and color
`c` and an absent description overwrites name and color and keeps the
stored description. -/
theorem update_label_coalesce_witness :
    updateLabel [⟨1, 5, 6, "n", some "d", none⟩] 1 ⟨some "n2", none, some "c"⟩
      = .ok (⟨1, 5, 6, "n2", some "d", some "c"⟩,
          [⟨1, 5, 6, "n2", some "d", some "c"⟩]) ∧
    (⟨1, 5, 6, "n2", some "d", some "c"⟩ : Label).description
      = (⟨1, 5, 6, "n", some "d", none⟩ : Label).description := by
  obtain ⟨-, -, -, hn, -, hc, -, hd, -, -⟩ :=
    update_label_coalesce [⟨1, 5, 6, "n", some "d", none⟩] 1
      ⟨some "n2", none, some "c"⟩ ⟨1, 5, 6, "n", some "d", none⟩
      ⟨1, 5, 6, "n2", some "d", some "c"⟩
      [⟨1, 5, 6, "n2", some "d", some "c"⟩] rfl rfl
  exact ⟨rfl, hd rfl⟩

/-- Claim C7: deleting an existing label identity and then getting the
same identity from the resulting store yields NotFound from the get. -/
theorem delete_then_get_not_found (s : List Label) (id : Nat) (l : Label)
    (s2 : List Label) (h : deleteLabel s id = .ok (l, s2)) :
    getLabel s2 id = .error .NotFound := by
  cases hf : s.find? (fun r => r.id == id) with
  | none => simp [deleteLabel, hf] at h
  | some x =>
    simp only [deleteLabel, hf, Except.ok.injEq, Prod.mk.injEq] at h
    obtain ⟨-, h2⟩ := h
    subst h2
    have hnone :
        (s.filter fun r => r.id != id).find? (fun r => r.id == id) = none := by
      rw [List.find?_eq_none]
      intro y hy
      have hq := (List.mem_filter.mp hy).2
      simp only [bne_iff_ne, ne_eq] at hq
      simp only [beq_iff_eq]
      exact hq
    simp [getLabel, hnone]

/-- Witness for claim C7: deleting label 1 from a one-label store leaves
the empty store, and getting 1 from it yields NotFound. -/
theorem delete_then_get_not_found_witness :
    deleteLabel [⟨1, 0, 0, "n", none, none⟩] 1
      = .ok (⟨1, 0, 0, "n", none, none⟩, []) ∧
    getLabel ([] : List Label) 1 = .error SDKError.NotFound := by
  refine ⟨rfl, ?_⟩
  exact delete_then_get_not_found [⟨1, 0, 0, "n", none, none⟩] 1
    ⟨1, 0, 0, "n", none, none⟩ [] rfl

/-- Claim C8: with the completion service returning the single-suggestion
JSON object wrapped in code-fence markup, `get_suggestions` trims the
fence and whitespace, parses the declared schema, and returns a record
whose title is `x` — for any engine state and any caller seed input. -/
theorem get_suggestions_strips_fence (st : EngineState)
    (input : TaskSuggestionInput) :
    ∃ s, (get_suggestions st input fencedSingleSuggestion).1 = Except.ok s ∧
      s.title = "x" := by
  exact ⟨⟨"x", "y", .Done, .High, "2024-01-01T00:00:00Z"⟩, rfl, rfl⟩

/-- Claim C9: whenever the stripped completion response fails schema
parsing, `get_suggestions` and `subdivide_task` fail with a Generation
error, return the store unchanged (no store write), make exactly one
completion call (no retry), and return no default or partial record. -/
theorem generation_parse_failure_closed :
    (∀ (st : EngineState) (input : TaskSuggestionInput) (response : String),
      parseTaskSuggestion (stripResponse response) = none →
      get_suggestions st input response = (.error .Generation, st, 1)) ∧
    (∀ (st : EngineState) (input : SubdivideTaskInput) (response : String)
      (task : Task),
      getTask st input.task_id = .ok task →
      parseTaskSuggestionList (stripResponse response) = none →
      subdivide_task st input response = (.error .Generation, st, 1)) := by
  constructor
  · intro st input response h
    simp [get_suggestions, h]
  · intro st input response task h1 h2
    simp [subdivide_task, h1, h2]

/-- Witness for claim C9: the malformed response `not json` makes
`get_suggestions` and `subdivide_task` fail with Generation, leaving the
store unchanged after one completion call. -/
theorem generation_parse_failure_closed_witness :
    get_suggestions ⟨[]⟩ ⟨none, none, none, none, none, none⟩ "not json"
      = (.error .Generation, ⟨[]⟩, 1) ∧
    subdivide_task ⟨[⟨1, "t"⟩]⟩ ⟨1, 3⟩ "not json"
      = (.error .Generation, ⟨[⟨1, "t"⟩]⟩, 1) := by
  exact ⟨generation_parse_failure_closed.1 _ _ _ rfl,
    generation_parse_failure_closed.2 _ _ _ ⟨1, "t"⟩ rfl rfl⟩

/-- Claim C10: when the completion response parses as an array of
suggestions, `subdivide_task` returns exactly that list of candidate
records (the `TaskSuggestion` type carries no identity field), with the
store unchanged and one completion call, and the result is the same for
every requested `subtasks` count — the count only shapes the prompt text
and is never validated against the response length. -/
theorem subdivide_task_returns_parsed (st : EngineState)
    (input : SubdivideTaskInput) (response : String) (task : Task)
    (l : List TaskSuggestion)
    (htask : getTask st input.task_id = .ok task)
    (hparse : parseTaskSuggestionList (stripResponse response) = some l) :
    subdivide_task st input response = (.ok l, st, 1) ∧
    ∀ k, subdivide_task st ⟨input.task_id, k⟩ response = (.ok l, st, 1) := by
  constructor
  · simp [subdivide_task, htask, hparse]
  · intro k
    simp [subdivide_task, htask, hparse]

set_option maxRecDepth 100000 in
/-- Witness for claim C10: requesting 5 subtasks against a response that
parses as a 3-element array yields exactly those 3 candidate records. -/
theorem subdivide_task_returns_parsed_witness :
    subdivide_task ⟨[⟨1, "t"⟩]⟩ ⟨1, 5⟩ threeElementResponse
      = (.ok [⟨"a", "da", .ToDo, .Low, "2024-01-01T00:00:00Z"⟩,
              ⟨"b", "db", .InProgress, .Medium, "2024-02-01T00:00:00Z"⟩,
              ⟨"c", "dc", .Done, .High, "2024-03-01T00:00:00Z"⟩],
          ⟨[⟨1, "t"⟩]⟩, 1) ∧
    [(⟨"a", "da", .ToDo, .Low, "2024-01-01T00:00:00Z"⟩ : TaskSuggestion),
     ⟨"b", "db", .InProgress, .Medium, "2024-02-01T00:00:00Z"⟩,
     ⟨"c", "dc", .Done, .High, "2024-03-01T00:00:00Z"⟩].length = 3 := by
  refine ⟨(subdivide_task_returns_parsed ⟨[⟨1, "t"⟩]⟩ ⟨1, 5⟩
    threeElementResponse ⟨1, "t"⟩ _ rfl rfl).1, rfl⟩

end Plexo
